import Mathlib

/-!
Verification of the PromptPix backend (src/backend/api/index.js, serverless
variant, the one exported via `module.exports.handler = serverless(app)`).

The backend is a set of Express handlers that validate a JSON body, lazily
construct a memoized Gemini client, call an external model, and reshape the
model response.  The external model is treated as an opaque oracle passed to
each handler as a function; the handler additionally returns the list of
calls it made to the oracle (the transcript), so "makes no model call" is
observable.  JavaScript truthiness on the string-typed request fields is
modelled by `truthy`; a JS exception is an `Except JsError` value.
-/

namespace PromptPix

/-- A JavaScript `Error` value: only its `message` is observed by the code. -/
structure JsError where
  message : String
  deriving Repr, DecidableEq

/-- JS truthiness of a possibly-missing string field: `undefined` and the
empty string are falsy, every other string is truthy. -/
def truthy : Option String → Bool
  | none => false
  | some s => s != ""

/-- Model of JavaScript `String.prototype.startsWith`: the needle is a
list-prefix of the subject's characters (executable by structural
recursion). -/
def strStartsWith (s pre : String) : Bool :=
  pre.data.isPrefixOf s.data

/-- Model of JavaScript `String.prototype.trim` (and of the SDK output
trimming): drop whitespace characters from both ends (executable by
structural recursion). -/
def jsTrim (s : String) : String :=
  ⟨((s.data.dropWhile Char.isWhitespace).reverse.dropWhile
      Char.isWhitespace).reverse⟩

/-- The environment `process.env`: the only variable the handlers read is `GEMINI_API_KEY`. -/
structure Env where
  GEMINI_API_KEY : Option String
  deriving Repr, DecidableEq

/-- A constructed `GoogleGenerativeAI` client.  The `id` field is a
construction nonce modelling JavaScript object identity: two calls to the
constructor yield objects with distinct ids. -/
structure GenAI where
  apiKey : String
  id : Nat
  deriving Repr, DecidableEq

/-- A model handle obtained from `genAI.getGenerativeModel`. -/
structure GenModel where
  client : GenAI
  model : String
  deriving Repr, DecidableEq

/-- The module-level mutable singletons of index.js
(`geminiModelInstance`, `t2iModelInstance`, `genAIInstance`) together with
the freshness counter that models object identity of new constructions. -/
structure SingletonState where
  geminiModelInstance : Option GenModel
  t2iModelInstance : Option GenModel
  genAIInstance : Option GenAI
  ctr : Nat
  deriving Repr, DecidableEq

/-- The initial module state: all three singletons are `null`. -/
def initState : SingletonState :=
  { geminiModelInstance := none, t2iModelInstance := none,
    genAIInstance := none, ctr := 0 }

/-- Model-name constant `MULTIMODAL_MODEL`. -/
def MULTIMODAL_MODEL : String := "gemini-2.5-flash"

/-- Model-name constant `T2I_MODEL`. -/
def T2I_MODEL : String := "gemini-2.5-flash-image-preview"

/-- Function `getGenAI()`: throws when `GEMINI_API_KEY` is falsy, otherwise returns
the cached client, constructing it (with a fresh identity) on first call. -/
def getGenAI (env : Env) (st : SingletonState) :
    Except JsError (GenAI × SingletonState) :=
  if truthy env.GEMINI_API_KEY = false then
    .error ⟨"GEMINI_API_KEY environment variable is not set or accessible."⟩
  else
    match st.genAIInstance with
    | some g => .ok (g, st)
    | none =>
      let g : GenAI := ⟨env.GEMINI_API_KEY.getD "", st.ctr⟩
      .ok (g, { st with genAIInstance := some g, ctr := st.ctr + 1 })

/-- Function `getGeminiModel()`: lazily derives the multimodal model handle. -/
def getGeminiModel (env : Env) (st : SingletonState) :
    Except JsError (GenModel × SingletonState) :=
  match st.geminiModelInstance with
  | some m => .ok (m, st)
  | none =>
    match getGenAI env st with
    | .error e => .error e
    | .ok (g, st1) =>
      let m : GenModel := ⟨g, MULTIMODAL_MODEL⟩
      .ok (m, { st1 with geminiModelInstance := some m })

/-- Function `getT2IModel()`: lazily derives the text-to-image model handle. -/
def getT2IModel (env : Env) (st : SingletonState) :
    Except JsError (GenModel × SingletonState) :=
  match st.t2iModelInstance with
  | some m => .ok (m, st)
  | none =>
    match getGenAI env st with
    | .error e => .error e
    | .ok (g, st1) =>
      let m : GenModel := ⟨g, T2I_MODEL⟩
      .ok (m, { st1 with t2iModelInstance := some m })

/-- An `inlineData` object of a model-response part; either field may be
absent in the raw JSON. -/
structure InlineData where
  data : Option String
  mimeType : Option String
  deriving Repr, DecidableEq

/-- A content part of a model response. -/
structure Part where
  text : Option String
  inlineData : Option InlineData
  deriving Repr, DecidableEq

/-- The `content` object of a candidate. -/
structure Content where
  parts : Option (List Part)
  deriving Repr, DecidableEq

/-- One candidate of a T2I model response. -/
structure Candidate where
  content : Option Content
  deriving Repr, DecidableEq

/-- A T2I model response as the serverless code consumes it. -/
structure T2IResponse where
  candidates : Option (List Candidate)
  deriving Repr, DecidableEq

/-- A text-model response as the serverless code consumes it
(`response.text` is read as a string). -/
structure TextResponse where
  text : String
  deriving Repr, DecidableEq

/-- One element of the array passed to `generateContent` of the multimodal
model: either a bare string or a `\x7btext\x7d` / `\x7binlineData\x7d` object. -/
inductive ContentItem where
  | str (s : String)
  | textPart (s : String)
  | inlinePart (d : InlineData)
  deriving Repr, DecidableEq

/-- Helper `fileToGenerativePart`: wraps base64 data and MIME type as an
inline-data content item, byte-for-byte. -/
def fileToGenerativePart (base64Data : String) (mimeType : String) :
    ContentItem :=
  .inlinePart ⟨some base64Data, some mimeType⟩

/-- The JSON bodies a handler can send back. -/
inductive RespBody where
  | resultBody (result : String)
  | errorBody (error : String)
  | imageBody (status finalPrompt image : String)
  deriving Repr, DecidableEq

/-- An HTTP response: status code plus JSON body. -/
structure HttpResponse where
  status : Nat
  body : RespBody
  deriving Repr, DecidableEq

/-- A handler outcome: the HTTP response, the updated module state, and the
transcript of calls made to the external model oracle. -/
structure HandlerOut (α : Type) where
  resp : HttpResponse
  st : SingletonState
  calls : List α
  deriving Repr, DecidableEq

/-- Fallback logic `error.message || "AI service failed to process the request."` -/
def messageOrDefault (m fallback : String) : String :=
  if m = "" then fallback else m

/-- Request body of POST /api/enhance-and-analyze. -/
structure EnhanceBody where
  type : Option String
  textPrompt : Option String
  base64Image : Option String
  mimeType : Option String
  deriving Repr, DecidableEq

/-- The fixed creative-director instruction of the enhance branch. -/
def enhanceInstruction : String :=
  "You are a world-class creative director specializing in high-fidelity generative art prompts. Take the user\x27s brief text and expand it into a detailed, descriptive prompt suitable for a modern image generation AI, including style, lighting, composition, and mood. Keep it under 100 words. The output must be ONLY the descriptive scene."

/-- The fixed analysis instruction of the analyze branch. -/
def analyzeInstruction : String :=
  "Analyze this image. Describe its primary subject, style, color palette, and mood. Generate a high-quality, creative prompt of 50-70 words suitable for an image generation model to create similar variations. Output ONLY the generated prompt text."

/-- The second element of the enhance-branch `generateContent` array:
the string so typed in the source. -/
def userBrief (textPrompt : String) : String :=
  "User brief: \"" ++ textPrompt ++ "\""

/-- POST /api/enhance-and-analyze (serverless variant).  Builds the model
first (so a missing key short-circuits to 500 before any validation), then
dispatches on the request shape, and finally returns the trimmed model
output. -/
def enhanceAndAnalyze (env : Env) (st : SingletonState) (body : EnhanceBody)
    (gemini : List ContentItem → TextResponse) :
    HandlerOut (List ContentItem) :=
  match getGeminiModel env st with
  | .error e =>
    { resp := ⟨500, .errorBody (messageOrDefault e.message
        "AI service failed to process the request.")⟩,
      st := st, calls := [] }
  | .ok (_, st1) =>
    if body.type = some "enhance" ∧ truthy body.textPrompt then
      let args : List ContentItem :=
        [.str enhanceInstruction, .str (userBrief (body.textPrompt.getD ""))]
      let response := gemini args
      { resp := ⟨200, .resultBody (jsTrim response.text)⟩, st := st1,
        calls := [args] }
    else if body.type = some "analyze" ∧ truthy body.base64Image ∧
        truthy body.mimeType then
      let imagePart := fileToGenerativePart (body.base64Image.getD "")
        (body.mimeType.getD "")
      let args : List ContentItem := [.textPart analyzeInstruction, imagePart]
      let response := gemini args
      { resp := ⟨200, .resultBody (jsTrim response.text)⟩, st := st1,
        calls := [args] }
    else
      { resp := ⟨400, .errorBody "Invalid request type or missing parameters."⟩,
        st := st1, calls := [] }

/-- The message of the TypeError thrown by the V8 runtime when startsWith
is read off the absent mimeType of an inline-data part. -/
def startsWithTypeError : String :=
  "Cannot read properties of undefined (reading \x27startsWith\x27)"

/-- The arrow predicate of the image-part scan: read off the source text,
it tests whether the part has inline data whose MIME type starts with
image/.  When inlineData is absent the optional chain short-circuits to
undefined (falsy); when inlineData is present but mimeType is absent,
startsWith is read off undefined and a TypeError is thrown. -/
def partIsImage (p : Part) : Except JsError Bool :=
  match p.inlineData with
  | none => .ok false
  | some idt =>
    match idt.mimeType with
    | none => .error ⟨startsWithTypeError⟩
    | some m => .ok (strStartsWith m "image/")

/-- Model of `Array.prototype.find` with the (possibly throwing) image predicate. -/
def findImagePart : List Part → Except JsError (Option Part)
  | [] => .ok none
  | p :: ps =>
    match partIsImage p with
    | .error e => .error e
    | .ok true => .ok (some p)
    | .ok false => findImagePart ps

/-- The optional chain `response.candidates?.[0]?.content?.parts`. -/
def responseParts (r : T2IResponse) : Option (List Part) :=
  match r.candidates with
  | none => none
  | some cs =>
    match cs.head? with
    | none => none
    | some c =>
      match c.content with
      | none => none
      | some ct => ct.parts

/-- Chain `response.candidates?.[0]?.content?.parts?.find(...)`: when the chain
yields `undefined` the find is never run and the result is `undefined`. -/
def extractImagePart (r : T2IResponse) : Except JsError (Option Part) :=
  match responseParts r with
  | none => .ok none
  | some ps => findImagePart ps

/-- The guard `!imagePart || !imagePart.inlineData?.data` on the found
part: true when the part's inline data is absent or its `data` is falsy. -/
def partDataTruthy (p : Part) : Bool :=
  match p.inlineData with
  | none => false
  | some idt => truthy idt.data

/-- Field `imagePart.inlineData.data` read off the accepted part. -/
def partData (p : Part) : String :=
  match p.inlineData with
  | none => ""
  | some idt => idt.data.getD ""

/-- Shared tail of the two T2I handlers: call the oracle with the prompt,
scan the candidates for an image part, and build the response; `finalPrompt`
and the success status line are supplied by the caller. -/
def t2iRespond (statusMsg finalPrompt prompt : String)
    (t2i : String → T2IResponse) (st1 : SingletonState) :
    HandlerOut String :=
  let response := t2i prompt
  match extractImagePart response with
  | .error e =>
    { resp := ⟨500, .errorBody e.message⟩, st := st1, calls := [prompt] }
  | .ok found =>
    match found with
    | none =>
      { resp := ⟨500, .errorBody "No image data returned from Gemini."⟩,
        st := st1, calls := [prompt] }
    | some part =>
      if partDataTruthy part = false then
        { resp := ⟨500, .errorBody "No image data returned from Gemini."⟩,
          st := st1, calls := [prompt] }
      else
        { resp := ⟨200, .imageBody statusMsg finalPrompt (partData part)⟩,
          st := st1, calls := [prompt] }

/-- POST /api/generate-image (serverless variant). -/
def generateImage (env : Env) (st : SingletonState)
    (approvedPrompt : Option String) (t2i : String → T2IResponse) :
    HandlerOut String :=
  if truthy approvedPrompt = false then
    { resp := ⟨400, .errorBody "Approved prompt is required."⟩, st := st,
      calls := [] }
  else
    match getT2IModel env st with
    | .error e =>
      { resp := ⟨500, .errorBody e.message⟩, st := st, calls := [] }
    | .ok (_, st1) =>
      let prompt := approvedPrompt.getD ""
      t2iRespond "Image generated successfully" prompt prompt t2i st1

/-- The fixed stylization template of the variation handler. -/
def variationTemplate : String :=
  "Create a stylized, artistic variation of the following image description, rendered as a cinematic digital painting with neon lighting and deep shadow: "

/-- POST /api/generate-variation (serverless variant). -/
def generateVariation (env : Env) (st : SingletonState)
    (imageAnalysis : Option String) (t2i : String → T2IResponse) :
    HandlerOut String :=
  if truthy imageAnalysis = false then
    { resp := ⟨400, .errorBody "Image analysis description is required."⟩,
      st := st, calls := [] }
  else
    match getT2IModel env st with
    | .error e =>
      { resp := ⟨500, .errorBody e.message⟩, st := st, calls := [] }
    | .ok (_, st1) =>
      let variationPrompt := variationTemplate ++ imageAnalysis.getD ""
      t2iRespond "Variation generated successfully" variationPrompt
        variationPrompt t2i st1

/-- The pure version of the image-part predicate: true exactly on parts
whose inline data is present with a MIME type starting with image/. -/
def isImageTyped (p : Part) : Bool :=
  match p.inlineData with
  | none => false
  | some idt =>
    match idt.mimeType with
    | none => false
    | some m => strStartsWith m "image/"

/-- Modelled from the spec: the selection rule as the spec words it,
"the first part carrying inline binary data", regardless of MIME type.
Used only to compare the spec wording with the source predicate. -/
def firstInlineDataPart (ps : List Part) : Option Part :=
  ps.find? (fun p => p.inlineData.isSome)

/-- A mocked text model that echoes back the base64 data of the inline
part of the request (used for the round-trip property). -/
def echoOracle : List ContentItem → TextResponse := fun args =>
  ⟨args.foldl (fun acc it =>
      match it with
      | .inlinePart idt => idt.data.getD acc
      | _ => acc) ""⟩

/-- A part with non-image inline data (data AAA, audio MIME type). -/
def partAudio : Part := ⟨none, some ⟨some "AAA", some "audio/mpeg"⟩⟩

/-- A part with image inline data (data BBB, image MIME type). -/
def partImageBBB : Part := ⟨none, some ⟨some "BBB", some "image/png"⟩⟩

/-- A T2I response whose parts are the audio part then the image part. -/
def respAudioThenImage : T2IResponse :=
  ⟨some [⟨some ⟨some [partAudio, partImageBBB]⟩⟩]⟩

/-- A T2I response with a single text part and no inline data at all. -/
def respTextOnly : T2IResponse :=
  ⟨some [⟨some ⟨some [⟨some "hello", none⟩]⟩⟩]⟩

/-- A T2I response containing one part whose inlineData lacks a mimeType. -/
def respNoMime : T2IResponse :=
  ⟨some [⟨some ⟨some [⟨none, some ⟨some "xyz", none⟩⟩]⟩⟩]⟩

/-- An HTTP method of the backend surface. -/
inductive Method where
  | GET
  | POST
  | OPTIONS
  deriving Repr, DecidableEq

/-- The routes registered on the Express app of the serverless variant, in
registration order: the CORS preflight catch-all and the three POST
endpoints.  No other route is registered. -/
def registeredRoutes : List (Method × String) :=
  [(.OPTIONS, "*"),
   (.POST, "/api/enhance-and-analyze"),
   (.POST, "/api/generate-image"),
   (.POST, "/api/generate-variation")]

/-- Express route dispatch over the registered routes: the first route
whose method matches and whose path is the catch-all or equals the request
path; `none` means Express falls through to its default 404. -/
def dispatch (m : Method) (path : String) : Option (Method × String) :=
  registeredRoutes.find?
    (fun r => decide (r.1 = m) && (decide (r.2 = "*") || decide (r.2 = path)))

/-- With a truthy key, `getGeminiModel` never throws. -/
theorem getGeminiModel_no_error (env : Env) (st : SingletonState) (e : JsError)
    (hk : truthy env.GEMINI_API_KEY = true) :
    getGeminiModel env st ≠ Except.error e := by
  unfold getGeminiModel getGenAI
  cases st.geminiModelInstance <;> cases st.genAIInstance <;> simp [hk]

/-- With a truthy key, `getT2IModel` never throws. -/
theorem getT2IModel_no_error (env : Env) (st : SingletonState) (e : JsError)
    (hk : truthy env.GEMINI_API_KEY = true) :
    getT2IModel env st ≠ Except.error e := by
  unfold getT2IModel getGenAI
  cases st.t2iModelInstance <;> cases st.genAIInstance <;> simp [hk]

/-- C4: a POST /api/generate-image request whose approvedPrompt is missing
or empty is rejected with HTTP 400, body error "Approved prompt is
required.", the module state untouched and no call made to the model. -/
theorem generateImage_missing_prompt (env : Env) (st : SingletonState)
    (ap : Option String) (t2i : String → T2IResponse)
    (h : truthy ap = false) :
    generateImage env st ap t2i =
      { resp := ⟨400, .errorBody "Approved prompt is required."⟩,
        st := st, calls := [] } := by
  simp [generateImage, h]

/-- C4 witness: the concrete input approvedPrompt = "" (with a key set and
an arbitrary oracle) yields exactly the 400 response and an empty call
transcript. -/
theorem generateImage_missing_prompt_witness :
    generateImage ⟨some "k"⟩ initState (some "") (fun _ => ⟨none⟩) =
      { resp := ⟨400, .errorBody "Approved prompt is required."⟩,
        st := initState, calls := [] } :=
  generateImage_missing_prompt ⟨some "k"⟩ initState (some "") (fun _ => ⟨none⟩)
    (by decide)

/-- C6 counterexample: no registered route of the backend matches a GET
request to /api/health-check; Express therefore falls through to its
default 404, so the claimed health-check endpoint does not exist. -/
theorem dispatch_healthCheck_none :
    dispatch Method.GET "/api/health-check" = none := by decide

/-- C6 (amended): the backend HTTP surface has no health-check endpoint;
it registers exactly four routes — the OPTIONS preflight catch-all and the
three POST endpoints — and a GET to /api/health-check matches none of
them. -/
theorem backend_surface_routes :
    registeredRoutes =
      [(Method.OPTIONS, "*"),
       (Method.POST, "/api/enhance-and-analyze"),
       (Method.POST, "/api/generate-image"),
       (Method.POST, "/api/generate-variation")] ∧
    dispatch Method.POST "/api/enhance-and-analyze" =
      some (Method.POST, "/api/enhance-and-analyze") ∧
    dispatch Method.POST "/api/generate-image" =
      some (Method.POST, "/api/generate-image") ∧
    dispatch Method.POST "/api/generate-variation" =
      some (Method.POST, "/api/generate-variation") ∧
    (registeredRoutes.filter (fun r => decide (r.1 = Method.GET))).length = 0 := by
  refine ⟨rfl, by decide, by decide, by decide, by decide⟩

/-- C7: `getGenAI` throws the configuration error whenever the API key is
absent (or empty) in the environment; when the key is truthy it succeeds,
and after any successful call the handle is cached and every subsequent
call returns the identical handle with the state unchanged. -/
theorem getGenAI_spec (env : Env) (st : SingletonState) :
    (truthy env.GEMINI_API_KEY = false →
      getGenAI env st = .error
        ⟨"GEMINI_API_KEY environment variable is not set or accessible."⟩) ∧
    (truthy env.GEMINI_API_KEY = true →
      ∃ g st1, getGenAI env st = .ok (g, st1)) ∧
    (∀ g st1, getGenAI env st = .ok (g, st1) →
      st1.genAIInstance = some g ∧ getGenAI env st1 = .ok (g, st1)) := by
  refine ⟨?_, ?_, ?_⟩
  · intro h
    simp [getGenAI, h]
  · intro h
    cases hgi : st.genAIInstance with
    | some g => exact ⟨g, st, by simp [getGenAI, h, hgi]⟩
    | none =>
      refine ⟨GenAI.mk (env.GEMINI_API_KEY.getD "") st.ctr, ?_, ?_⟩
      · exact SingletonState.mk st.geminiModelInstance st.t2iModelInstance
          (some (GenAI.mk (env.GEMINI_API_KEY.getD "") st.ctr)) (st.ctr + 1)
      · simp [getGenAI, h, hgi]
  · intro g st1 hok
    by_cases h : truthy env.GEMINI_API_KEY = false
    · simp [getGenAI, h] at hok
    · rw [Bool.not_eq_false] at h
      cases hgi : st.genAIInstance with
      | some g0 =>
        simp [getGenAI, h, hgi] at hok
        obtain ⟨hg, hst⟩ := hok
        subst hg
        subst hst
        exact ⟨hgi, by simp [getGenAI, h, hgi]⟩
      | none =>
        simp [getGenAI, h, hgi] at hok
        obtain ⟨hg, hst⟩ := hok
        subst hg
        subst hst
        refine ⟨rfl, ?_⟩
        simp [getGenAI, h]

/-- C7 witness: with no key the first call throws the configuration error;
with key "k" the first call from the initial state constructs the handle,
and the second call returns the identical handle and leaves the state
unchanged. -/
theorem getGenAI_spec_witness :
    getGenAI ⟨none⟩ initState =
      .error ⟨"GEMINI_API_KEY environment variable is not set or accessible."⟩ ∧
    getGenAI ⟨some "k"⟩
        { geminiModelInstance := none, t2iModelInstance := none,
          genAIInstance := some ⟨"k", 0⟩, ctr := 1 } =
      .ok (⟨"k", 0⟩,
        { geminiModelInstance := none, t2iModelInstance := none,
          genAIInstance := some ⟨"k", 0⟩, ctr := 1 }) :=
  ⟨(getGenAI_spec ⟨none⟩ initState).1 (by decide),
   ((getGenAI_spec ⟨some "k"⟩ initState).2.2 ⟨"k", 0⟩
      { geminiModelInstance := none, t2iModelInstance := none,
        genAIInstance := some ⟨"k", 0⟩, ctr := 1 } rfl).2⟩

/-- C9: in the serverless variant the enhance-and-analyze handler acquires
the model before validating the body, so with GEMINI_API_KEY unset every
request — whatever its fields, including invalid ones — gets HTTP 500 with
the configuration-error message, no model call is made, and the 400
validation branch is unreachable. -/
theorem enhanceAndAnalyze_no_key (env : Env) (st : SingletonState)
    (body : EnhanceBody) (gemini : List ContentItem → TextResponse)
    (hk : truthy env.GEMINI_API_KEY = false)
    (hst : st.geminiModelInstance = none) :
    enhanceAndAnalyze env st body gemini =
      { resp := ⟨500, .errorBody
          "GEMINI_API_KEY environment variable is not set or accessible."⟩,
        st := st, calls := [] } := by
  have hg : getGeminiModel env st = .error
      ⟨"GEMINI_API_KEY environment variable is not set or accessible."⟩ := by
    simp [getGeminiModel, getGenAI, hk, hst]
  simp [enhanceAndAnalyze, hg, messageOrDefault]

/-- C9 witness: with the key unset, a body with missing fields — which the
validation branch would reject with 400 — yields the 500 configuration
error. -/
theorem enhanceAndAnalyze_no_key_witness :
    enhanceAndAnalyze ⟨none⟩ initState ⟨none, none, none, none⟩
        (fun _ => ⟨""⟩) =
      { resp := ⟨500, .errorBody
          "GEMINI_API_KEY environment variable is not set or accessible."⟩,
        st := initState, calls := [] } :=
  enhanceAndAnalyze_no_key ⟨none⟩ initState ⟨none, none, none, none⟩
    (fun _ => ⟨""⟩) (by decide) (by decide)

/-- On every path past validation and model acquisition, the T2I handlers
make exactly one model call, with the constructed prompt. -/
theorem t2iRespond_calls (sm fp pr : String) (t2i : String → T2IResponse)
    (st1 : SingletonState) :
    (t2iRespond sm fp pr t2i st1).calls = [pr] := by
  rcases hx : extractImagePart (t2i pr) with e | found
  · simp [t2iRespond, hx]
  · rcases found with _ | part
    · simp [t2iRespond, hx]
    · by_cases h : partDataTruthy part = false <;> simp [t2iRespond, hx, h]

/-- When the scan accepts a part and its data is truthy, the T2I handlers
answer 200 with the part's base64 data. -/
theorem t2iRespond_success (sm fp pr : String) (t2i : String → T2IResponse)
    (st1 : SingletonState) (part : Part)
    (hx : extractImagePart (t2i pr) = .ok (some part))
    (hd : partDataTruthy part = true) :
    t2iRespond sm fp pr t2i st1 =
      { resp := ⟨200, .imageBody sm fp (partData part)⟩, st := st1,
        calls := [pr] } := by
  simp [t2iRespond, hx, hd]

/-- When the scan finds no image part, the T2I handlers answer 500 with
the no-image message. -/
theorem t2iRespond_noImage (sm fp pr : String) (t2i : String → T2IResponse)
    (st1 : SingletonState)
    (hx : extractImagePart (t2i pr) = .ok none) :
    t2iRespond sm fp pr t2i st1 =
      { resp := ⟨500, .errorBody "No image data returned from Gemini."⟩,
        st := st1, calls := [pr] } := by
  simp [t2iRespond, hx]

/-- When the part scan throws, the T2I handlers answer 500 with the thrown
message. -/
theorem t2iRespond_throw (sm fp pr : String) (t2i : String → T2IResponse)
    (st1 : SingletonState) (e : JsError)
    (hx : extractImagePart (t2i pr) = .error e) :
    t2iRespond sm fp pr t2i st1 =
      { resp := ⟨500, .errorBody e.message⟩, st := st1, calls := [pr] } := by
  simp [t2iRespond, hx]

/-- Scanning a part list in which no part carries inline data finds
nothing. -/
theorem findImagePart_of_noInline (ps : List Part)
    (h : ∀ q ∈ ps, q.inlineData = none) :
    findImagePart ps = .ok none := by
  induction ps with
  | nil => rfl
  | cons q ps ih =>
    have hq : q.inlineData = none := h q (List.mem_cons_self q ps)
    have hpi : partIsImage q = .ok false := by simp [partIsImage, hq]
    rw [findImagePart, hpi]
    exact ih (fun r hr => h r (List.mem_cons_of_mem q hr))

/-- C1: with the key configured, an enhance request with truthy textPrompt
makes exactly one model call, the two-element array of the fixed
creative-director instruction and the user-brief string embedding the
prompt, and answers 200 with the model output trimmed; a request matching
neither the enhance nor the analyze shape answers 400 with the validation
message and makes no model call. -/
theorem enhanceAndAnalyze_contract (env : Env) (st : SingletonState)
    (body : EnhanceBody) (gemini : List ContentItem → TextResponse)
    (hk : truthy env.GEMINI_API_KEY = true) :
    (body.type = some "enhance" → truthy body.textPrompt = true →
      ∃ st1, enhanceAndAnalyze env st body gemini =
        { resp := ⟨200, .resultBody (jsTrim (gemini
            [ContentItem.str enhanceInstruction,
             ContentItem.str (userBrief (body.textPrompt.getD ""))]).text)⟩,
          st := st1,
          calls := [[ContentItem.str enhanceInstruction,
            ContentItem.str (userBrief (body.textPrompt.getD ""))]] }) ∧
    (¬(body.type = some "enhance" ∧ truthy body.textPrompt = true) →
     ¬(body.type = some "analyze" ∧ truthy body.base64Image = true ∧
        truthy body.mimeType = true) →
      ∃ st1, enhanceAndAnalyze env st body gemini =
        { resp := ⟨400, .errorBody "Invalid request type or missing parameters."⟩,
          st := st1, calls := [] }) := by
  rcases hm : getGeminiModel env st with e | p
  · exact absurd hm (getGeminiModel_no_error env st e hk)
  · obtain ⟨m, st1⟩ := p
    constructor
    · intro h1 h2
      exact ⟨st1, by simp [enhanceAndAnalyze, hm, h1, h2]⟩
    · intro hn1 hn2
      exact ⟨st1, by simp [enhanceAndAnalyze, hm, hn1, hn2]⟩

/-- C1 witness: the concrete enhance request "a castle" against a mocked
model yields 200 with the trimmed mock output and exactly one model call;
C1 is also exercised at a malformed body through the same theorem. -/
theorem enhanceAndAnalyze_contract_witness :
    (∃ st1, enhanceAndAnalyze ⟨some "k"⟩ initState
        ⟨some "enhance", some "a castle", none, none⟩
        (fun _ => ⟨" A castle at dusk. "⟩) =
      { resp := ⟨200, .resultBody (jsTrim " A castle at dusk. ")⟩,
        st := st1,
        calls := [[ContentItem.str enhanceInstruction,
          ContentItem.str (userBrief "a castle")]] }) ∧
    (∃ st1, enhanceAndAnalyze ⟨some "k"⟩ initState ⟨some "bogus", none, none, none⟩
        (fun _ => ⟨" A castle at dusk. "⟩) =
      { resp := ⟨400, .errorBody "Invalid request type or missing parameters."⟩,
        st := st1, calls := [] }) :=
  ⟨(enhanceAndAnalyze_contract ⟨some "k"⟩ initState
      ⟨some "enhance", some "a castle", none, none⟩
      (fun _ => ⟨" A castle at dusk. "⟩) rfl).1 rfl rfl,
   (enhanceAndAnalyze_contract ⟨some "k"⟩ initState
      ⟨some "bogus", none, none, none⟩
      (fun _ => ⟨" A castle at dusk. "⟩) rfl).2 (by decide) (by decide)⟩

/-- C5: with the key configured and a non-empty imageAnalysis, the
variation handler sends the image model exactly the fixed stylization
template with the analysis text appended, and on success the response's
finalPrompt is that constructed prompt, not the raw analysis text. -/
theorem generateVariation_contract (env : Env) (st : SingletonState)
    (ia : Option String) (t2i : String → T2IResponse)
    (hk : truthy env.GEMINI_API_KEY = true) (hia : truthy ia = true) :
    (generateVariation env st ia t2i).calls =
      [variationTemplate ++ ia.getD ""] ∧
    (∀ part, extractImagePart (t2i (variationTemplate ++ ia.getD "")) =
        .ok (some part) →
      partDataTruthy part = true →
      (generateVariation env st ia t2i).resp =
        ⟨200, .imageBody "Variation generated successfully"
          (variationTemplate ++ ia.getD "") (partData part)⟩) := by
  rcases hm : getT2IModel env st with e | p
  · exact absurd hm (getT2IModel_no_error env st e hk)
  · obtain ⟨m, st1⟩ := p
    constructor
    · simp [generateVariation, hia, hm, t2iRespond_calls]
    · intro part hx hd
      simp [generateVariation, hia, hm,
        t2iRespond_success _ _ _ _ _ _ hx hd]

/-- C5 witness: analysis text "a red fox" produces the template-wrapped
prompt as the sole model call and as the success finalPrompt. -/
theorem generateVariation_contract_witness :
    (generateVariation ⟨some "k"⟩ initState (some "a red fox")
        (fun _ => respAudioThenImage)).calls =
      [variationTemplate ++ "a red fox"] ∧
    (generateVariation ⟨some "k"⟩ initState (some "a red fox")
        (fun _ => respAudioThenImage)).resp =
      ⟨200, .imageBody "Variation generated successfully"
        (variationTemplate ++ "a red fox") (partData partImageBBB)⟩ :=
  ⟨(generateVariation_contract ⟨some "k"⟩ initState (some "a red fox")
      (fun _ => respAudioThenImage) rfl rfl).1,
   (generateVariation_contract ⟨some "k"⟩ initState (some "a red fox")
      (fun _ => respAudioThenImage) rfl rfl).2 partImageBBB (by rfl) (by rfl)⟩

/-- C3: with the key configured and the required field non-empty, if the
model response's parts carry no inline data at all, generate-image and
generate-variation both answer 500 with the message "No image data
returned from Gemini.". -/
theorem t2i_noInlineData_500 (env : Env) (st : SingletonState)
    (ap ia : Option String) (t2i : String → T2IResponse)
    (ps qs : List Part)
    (hk : truthy env.GEMINI_API_KEY = true)
    (hap : truthy ap = true) (hia : truthy ia = true)
    (hps : responseParts (t2i (ap.getD "")) = some ps)
    (hpsNone : ∀ q ∈ ps, q.inlineData = none)
    (hqs : responseParts (t2i (variationTemplate ++ ia.getD "")) = some qs)
    (hqsNone : ∀ q ∈ qs, q.inlineData = none) :
    (∃ st1, generateImage env st ap t2i =
      { resp := ⟨500, .errorBody "No image data returned from Gemini."⟩,
        st := st1, calls := [ap.getD ""] }) ∧
    (∃ st1, generateVariation env st ia t2i =
      { resp := ⟨500, .errorBody "No image data returned from Gemini."⟩,
        st := st1, calls := [variationTemplate ++ ia.getD ""] }) := by
  rcases hm : getT2IModel env st with e | p
  · exact absurd hm (getT2IModel_no_error env st e hk)
  · obtain ⟨m, st1⟩ := p
    have hx1 : extractImagePart (t2i (ap.getD "")) = .ok none := by
      rw [extractImagePart, hps]
      exact findImagePart_of_noInline ps hpsNone
    have hx2 : extractImagePart
        (t2i (variationTemplate ++ ia.getD "")) = .ok none := by
      rw [extractImagePart, hqs]
      exact findImagePart_of_noInline qs hqsNone
    constructor
    · exact ⟨st1, by
        simp [generateImage, hap, hm, t2iRespond_noImage _ _ _ _ _ hx1]⟩
    · exact ⟨st1, by
        simp [generateVariation, hia, hm, t2iRespond_noImage _ _ _ _ _ hx2]⟩

/-- C3 witness: a mocked response holding a single text-only part drives
both endpoints to 500 with the no-image message. -/
theorem t2i_noInlineData_500_witness :
    (∃ st1, generateImage ⟨some "k"⟩ initState (some "p")
        (fun _ => respTextOnly) =
      { resp := ⟨500, .errorBody "No image data returned from Gemini."⟩,
        st := st1, calls := ["p"] }) ∧
    (∃ st1, generateVariation ⟨some "k"⟩ initState (some "a")
        (fun _ => respTextOnly) =
      { resp := ⟨500, .errorBody "No image data returned from Gemini."⟩,
        st := st1, calls := [variationTemplate ++ "a"] }) :=
  t2i_noInlineData_500 ⟨some "k"⟩ initState (some "p") (some "a")
    (fun _ => respTextOnly) [⟨some "hello", none⟩] [⟨some "hello", none⟩]
    rfl rfl rfl rfl (by decide) rfl (by decide)

/-- C8: with the key configured, an analyze request forwards the submitted
base64 string to the model byte-for-byte as the inline-data payload, and
an image echoed back by a mocked model round-trips unchanged (up to the
final whitespace trim, the identity on base64 text). -/
theorem analyze_forwards_base64 (env : Env) (st : SingletonState)
    (body : EnhanceBody) (gemini : List ContentItem → TextResponse)
    (b64 mime : String)
    (hk : truthy env.GEMINI_API_KEY = true)
    (ht : body.type = some "analyze")
    (hb : body.base64Image = some b64)
    (hbt : truthy body.base64Image = true)
    (hmi : body.mimeType = some mime)
    (hmt : truthy body.mimeType = true) :
    (∃ st1, enhanceAndAnalyze env st body gemini =
      { resp := ⟨200, .resultBody (jsTrim (gemini
          [ContentItem.textPart analyzeInstruction,
           fileToGenerativePart b64 mime]).text)⟩,
        st := st1,
        calls := [[ContentItem.textPart analyzeInstruction,
          ContentItem.inlinePart ⟨some b64, some mime⟩]] }) ∧
    (jsTrim b64 = b64 →
      (enhanceAndAnalyze env st body echoOracle).resp =
        ⟨200, .resultBody b64⟩) := by
  rcases hm : getGeminiModel env st with e | p
  · exact absurd hm (getGeminiModel_no_error env st e hk)
  · obtain ⟨m, st1⟩ := p
    have hne : ¬(body.type = some "enhance" ∧ truthy body.textPrompt = true) := by
      rw [ht]
      rintro ⟨hcon, -⟩
      exact absurd hcon (by decide)
    have hbt2 : truthy (some b64) = true := hb ▸ hbt
    have hmt2 : truthy (some mime) = true := hmi ▸ hmt
    constructor
    · refine ⟨st1, ?_⟩
      simp [enhanceAndAnalyze, hm, hne, ht, hbt2, hmt2, hb, hmi,
        fileToGenerativePart]
    · intro htrim
      simp [enhanceAndAnalyze, hm, hne, ht, hbt2, hmt2, hb, hmi,
        fileToGenerativePart, echoOracle, htrim]

/-- C8 witness: the concrete base64 text aGVsbG8= with MIME image/png is
forwarded unmodified and round-trips unchanged through the echoing mock. -/
theorem analyze_forwards_base64_witness :
    (∃ st1, enhanceAndAnalyze ⟨some "k"⟩ initState
        ⟨some "analyze", none, some "aGVsbG8=", some "image/png"⟩
        (fun _ => ⟨"desc"⟩) =
      { resp := ⟨200, .resultBody (jsTrim "desc")⟩,
        st := st1,
        calls := [[ContentItem.textPart analyzeInstruction,
          ContentItem.inlinePart ⟨some "aGVsbG8=", some "image/png"⟩]] }) ∧
    (enhanceAndAnalyze ⟨some "k"⟩ initState
        ⟨some "analyze", none, some "aGVsbG8=", some "image/png"⟩
        echoOracle).resp = ⟨200, .resultBody "aGVsbG8="⟩ :=
  ⟨(analyze_forwards_base64 ⟨some "k"⟩ initState
      ⟨some "analyze", none, some "aGVsbG8=", some "image/png"⟩
      (fun _ => ⟨"desc"⟩) "aGVsbG8=" "image/png"
      rfl rfl rfl rfl rfl rfl).1,
   (analyze_forwards_base64 ⟨some "k"⟩ initState
      ⟨some "analyze", none, some "aGVsbG8=", some "image/png"⟩
      (fun _ => ⟨"desc"⟩) "aGVsbG8=" "image/png"
      rfl rfl rfl rfl rfl rfl).2 (by rfl)⟩

/-- When every inline-data part in the list has a MIME type present, the
throwing scan agrees with the pure first-match of `isImageTyped`. -/
theorem findImagePart_eq_find (ps : List Part)
    (h : ∀ q ∈ ps, ∀ idt, q.inlineData = some idt → idt.mimeType.isSome = true) :
    findImagePart ps = .ok (ps.find? isImageTyped) := by
  induction ps with
  | nil => rfl
  | cons q ps ih =>
    have hq := h q (List.mem_cons_self q ps)
    have htail : findImagePart ps = .ok (ps.find? isImageTyped) :=
      ih (fun r hr idt hri => h r (List.mem_cons_of_mem q hr) idt hri)
    rcases hqi : q.inlineData with _ | idt
    · have hpi : partIsImage q = .ok false := by simp [partIsImage, hqi]
      have himg : isImageTyped q = false := by simp [isImageTyped, hqi]
      rw [List.find?_cons_of_neg _ (by simp [himg])]
      simp only [findImagePart]
      rw [hpi]
      exact htail
    · rcases hmt : idt.mimeType with _ | mt
      · exact absurd (hq idt hqi) (by simp [hmt])
      · have hpi : partIsImage q = .ok (strStartsWith mt "image/") := by
          simp [partIsImage, hqi, hmt]
        have himg : isImageTyped q = strStartsWith mt "image/" := by
          simp [isImageTyped, hqi, hmt]
        cases hs : strStartsWith mt "image/" with
        | true =>
          rw [List.find?_cons_of_pos _ (by rw [himg, hs])]
          simp only [findImagePart]
          rw [hpi, hs]
        | false =>
          rw [List.find?_cons_of_neg _ (by simp [himg, hs])]
          simp only [findImagePart]
          rw [hpi, hs]
          exact htail

/-- C2 counterexample: on a response whose parts are a non-image
inline-data part carrying AAA followed by an image inline-data part
carrying BBB, the first part carrying inline data is the AAA part, yet the
handler returns image BBB — so the handler does not select the first part
carrying inline binary data. -/
theorem generateImage_not_first_inline_part :
    firstInlineDataPart [partAudio, partImageBBB] = some partAudio ∧
    partData partAudio = "AAA" ∧
    (generateImage ⟨some "k"⟩ initState (some "p")
        (fun _ => respAudioThenImage)).resp =
      ⟨200, .imageBody "Image generated successfully" "p" "BBB"⟩ ∧
    (("BBB" : String) == "AAA") = false := by
  refine ⟨by decide, by decide, by decide, by decide⟩

/-- C2 (amended): with the key configured and a non-empty approvedPrompt,
when every inline-data part of the model response has a MIME type and
non-empty data, the handler selects the FIRST part whose inline-data MIME
type starts with image/ and returns 200 with finalPrompt exactly the
submitted prompt and image that part's base64 data. -/
theorem generateImage_selects_first_image_part (env : Env)
    (st : SingletonState) (ap : Option String) (t2i : String → T2IResponse)
    (ps : List Part) (part : Part)
    (hk : truthy env.GEMINI_API_KEY = true)
    (hap : truthy ap = true)
    (hps : responseParts (t2i (ap.getD "")) = some ps)
    (hwf : ∀ q ∈ ps, ∀ idt, q.inlineData = some idt →
      idt.mimeType.isSome = true ∧ truthy idt.data = true)
    (hfind : ps.find? isImageTyped = some part) :
    ∃ st1, generateImage env st ap t2i =
      { resp := ⟨200, .imageBody "Image generated successfully" (ap.getD "")
          (partData part)⟩,
        st := st1, calls := [ap.getD ""] } := by
  rcases hm : getT2IModel env st with e | p
  · exact absurd hm (getT2IModel_no_error env st e hk)
  · obtain ⟨m, st1⟩ := p
    have hx : extractImagePart (t2i (ap.getD "")) = .ok (some part) := by
      rw [extractImagePart, hps]
      have h1 := findImagePart_eq_find ps (fun q hq idt hi => (hwf q hq idt hi).1)
      rw [hfind] at h1
      exact h1
    have hmem : part ∈ ps := List.mem_of_find?_eq_some hfind
    have himg : isImageTyped part = true := List.find?_some hfind
    have hd : partDataTruthy part = true := by
      rcases hpi : part.inlineData with _ | idt
      · simp [isImageTyped, hpi] at himg
      · have := (hwf part hmem idt hpi).2
        simp [partDataTruthy, hpi, this]
    exact ⟨st1, by
      simp [generateImage, hap, hm, t2iRespond_success _ _ _ _ _ _ hx hd]⟩

/-- C2 witness: on the AAA-audio-then-BBB-image response the handler
returns 200 with finalPrompt "p" unchanged and image BBB, the data of the
first image-typed part. -/
theorem generateImage_selects_first_image_part_witness :
    ∃ st1, generateImage ⟨some "k"⟩ initState (some "p")
        (fun _ => respAudioThenImage) =
      { resp := ⟨200, .imageBody "Image generated successfully" "p"
          (partData partImageBBB)⟩,
        st := st1, calls := ["p"] } :=
  generateImage_selects_first_image_part ⟨some "k"⟩ initState (some "p")
    (fun _ => respAudioThenImage) [partAudio, partImageBBB] partImageBBB
    rfl rfl rfl (by decide) (by decide)

/-- C10: the part-selection predicate evaluates, on an inline-data part
with a present MIME type, to whether that MIME type starts with image/
(so a non-image inline-data part is skipped, as the AAA-audio part is
skipped in favour of the BBB-image part); on a response whose part has
inline data but no mimeType field the predicate throws, and both T2I
handlers answer 500 with the TypeError message instead of the
no-image message. -/
theorem imagePartPredicate_spec :
    (∀ (t d : Option String) (m : String),
      partIsImage ⟨t, some ⟨d, some m⟩⟩ = .ok (strStartsWith m "image/")) ∧
    findImagePart [partAudio, partImageBBB] = .ok (some partImageBBB) ∧
    partIsImage ⟨none, some ⟨some "xyz", none⟩⟩ = .error ⟨startsWithTypeError⟩ ∧
    (generateImage ⟨some "k"⟩ initState (some "p2")
        (fun _ => respNoMime)).resp = ⟨500, .errorBody startsWithTypeError⟩ ∧
    (generateVariation ⟨some "k"⟩ initState (some "a2")
        (fun _ => respNoMime)).resp = ⟨500, .errorBody startsWithTypeError⟩ ∧
    ((startsWithTypeError == "No image data returned from Gemini.") = false) := by
  refine ⟨fun t d m => rfl, by rfl, rfl, by decide, by decide, by decide⟩

end PromptPix
